import Mathlib

/-!
Verification of the redirect-rewriting middleware in
`src/app/views/v1/routing.js` of GOVUK_prototype_kit_version_control.

The middleware (lines 6–15) replaces `res.redirect` with a wrapper that
prepends `req.baseUrl` to any target beginning with `/` and then calls the
original redirect. Two POST handlers (lines 19–25) redirect between
`/question-1` and `/question-2`.

JavaScript strings are modelled as `List Char`; `s.startsWith(p)` is the
prefix test and string concatenation is list append.
-/

namespace RoutingV1

/-- A JavaScript string, modelled as its sequence of characters. -/
abbrev JSString := List Char

/-- Embed a Lean string literal into the JavaScript string model. -/
def str (s : String) : JSString := s.data

/-- JavaScript `s.startsWith(pre)`: `pre` is a prefix of `s`. -/
def jsStartsWith (s pre : JSString) : Bool := pre.isPrefixOf s

/-- The Express request object as used by this middleware: the only field
read is `req.baseUrl`, the mount prefix of the sub-router. -/
structure Request where
  baseUrl : JSString

/-- The Express response object: its `redirect` method (returning results of
abstract type `α`), together with an abstract remainder `rest : σ` standing
for all of its other fields. -/
structure Response (α σ : Type) where
  redirect : JSString → α
  rest : σ

/-- The wrapped `res.redirect` installed by the middleware
(`routing.js` lines 8–13): if `url` starts with `/`, reassign
`url = req.baseUrl + url`; then return `originalRedirect.call(this, url)`. -/
def wrappedRedirect {α : Type} (baseUrl : JSString)
    (originalRedirect : JSString → α) (url : JSString) : α :=
  let url := if jsStartsWith url (str "/") then baseUrl ++ url else url
  originalRedirect url

/-- The final destination computed by the wrapper: the mount prefix is
prepended exactly when the target is path-absolute. -/
def rewriteTarget (baseUrl url : JSString) : JSString :=
  if jsStartsWith url (str "/") then baseUrl ++ url else url

/-- The middleware body run by `subRouter.use` (lines 6–15): it captures the
original `res.redirect` and replaces that one method of the response object
by the wrapper, leaving everything else in place. -/
def installRewriter {α σ : Type} (req : Request) (res : Response α σ) :
    Response α σ :=
  { res with redirect := wrappedRedirect req.baseUrl res.redirect }

/-- An instrumented underlying redirect primitive that records the list of
targets it is invoked with, used to observe how often and with which target
the wrapper calls through. -/
def traceRedirect : JSString → List JSString := fun url => [url]

/-- Handler bound to `POST /question-1` (lines 19–21): unconditionally calls
`res.redirect('/question-2')`. -/
def question1Handler {α σ : Type} (res : Response α σ) : α :=
  res.redirect (str "/question-2")

/-- Handler bound to `POST /question-2` (lines 23–25): unconditionally calls
`res.redirect('/question-1')`. -/
def question2Handler {α σ : Type} (res : Response α σ) : α :=
  res.redirect (str "/question-1")

/-- The middleware runs once per request: installing the rewriter on the
request/response pair at position `i` of a collection of concurrent pairs,
leaving every other pair alone. -/
def installAt {α σ : Type} (pairs : List (Request × Response α σ)) (i : Nat) :
    List (Request × Response α σ) :=
  match pairs[i]? with
  | some (req, res) => pairs.set i (req, installRewriter req res)
  | none => pairs

end RoutingV1

namespace RoutingV1

/-- C1: for every mount prefix `p` and every target `t` beginning with `/`,
the wrapped redirect makes exactly one underlying redirect call, with target
exactly `p ++ t`. -/
theorem wrapped_pathAbsolute_prefixes (p t : JSString)
    (h : jsStartsWith t (str "/") = true) :
    wrappedRedirect p traceRedirect t = [p ++ t] := by
  simp [wrappedRedirect, traceRedirect, h]

/-- C1 witness: with prefix `/v1` and target `/question-2` the single
underlying call has target `/v1/question-2`. -/
theorem wrapped_pathAbsolute_prefixes_witness :
    wrappedRedirect (str "/v1") traceRedirect (str "/question-2")
      = [str "/v1/question-2"] :=
  (wrapped_pathAbsolute_prefixes (str "/v1") (str "/question-2")
    (by decide)).trans (by decide)

/-- C2: for every mount prefix `p` and every target `t` that does not begin
with `/`, the wrapped redirect makes exactly one underlying call with target
exactly `t`, unmodified. -/
theorem wrapped_nonPathAbsolute_passthrough (p t : JSString)
    (h : jsStartsWith t (str "/") = false) :
    wrappedRedirect p traceRedirect t = [t] := by
  simp [wrappedRedirect, traceRedirect, h]

/-- C2 witness: a full URL, and the empty string, pass through unmodified
under prefix `/v1`. -/
theorem wrapped_nonPathAbsolute_passthrough_witness :
    wrappedRedirect (str "/v1") traceRedirect (str "https://example.com/elsewhere")
        = [str "https://example.com/elsewhere"] ∧
      wrappedRedirect (str "/v1") traceRedirect (str "") = [str ""] :=
  ⟨wrapped_nonPathAbsolute_passthrough (str "/v1")
      (str "https://example.com/elsewhere") (by decide),
    wrapped_nonPathAbsolute_passthrough (str "/v1") (str "") (by decide)⟩

/-- C3 counterexample: installing the rewriter twice on the same response and
redirecting to `/question-2` under mount prefix `/v1` produces the underlying
target `/v1/v1/question-2`, not `/v1/question-2`: the code has no guard
against double-wrapping. -/
theorem doubleInstall_counterexample :
    (installRewriter ⟨str "/v1"⟩ (installRewriter ⟨str "/v1"⟩
        (⟨traceRedirect, ()⟩ : Response (List JSString) Unit))).redirect
        (str "/question-2")
        = [str "/v1/v1/question-2"] ∧
      (installRewriter ⟨str "/v1"⟩ (installRewriter ⟨str "/v1"⟩
        (⟨traceRedirect, ()⟩ : Response (List JSString) Unit))).redirect
        (str "/question-2")
        ≠ [str "/v1/question-2"] := by
  constructor <;> decide

/-- C3 amended: installing the rewriter twice and redirecting to a
path-absolute target `t` under prefix `p` yields the underlying target
`p ++ (p ++ t)` whenever `p ++ t` is itself path-absolute (in particular for
every prefix beginning with `/`): double installation double-prefixes. -/
theorem doubleInstall_doublePrefixes {σ : Type} (p t : JSString) (rest : σ)
    (ht : jsStartsWith t (str "/") = true)
    (hpt : jsStartsWith (p ++ t) (str "/") = true) :
    (installRewriter ⟨p⟩ (installRewriter ⟨p⟩
        (⟨traceRedirect, rest⟩ : Response (List JSString) σ))).redirect t
      = [p ++ (p ++ t)] := by
  simp [installRewriter, wrappedRedirect, traceRedirect, ht, hpt]

/-- C3 amended witness: prefix `/v1`, target `/question-2`, two
installations give `/v1/v1/question-2`. -/
theorem doubleInstall_doublePrefixes_witness :
    (installRewriter ⟨str "/v1"⟩ (installRewriter ⟨str "/v1"⟩
        (⟨traceRedirect, ()⟩ : Response (List JSString) Unit))).redirect
        (str "/question-2")
      = [str "/v1/v1/question-2"] :=
  (doubleInstall_doublePrefixes (str "/v1") (str "/question-2") ()
    (by decide) (by decide)).trans (by decide)

/-- C4: under the empty mount prefix, every path-absolute target is passed
to the underlying redirect unchanged; in particular `/question-2` yields
exactly `/question-2`. -/
theorem emptyPrefix_identity (t : JSString)
    (_h : jsStartsWith t (str "/") = true) :
    wrappedRedirect (str "") traceRedirect t = [t] := by
  simp [wrappedRedirect, traceRedirect, str]

/-- C4 witness: empty prefix, target `/question-2`, underlying target
`/question-2`. -/
theorem emptyPrefix_identity_witness :
    wrappedRedirect (str "") traceRedirect (str "/question-2")
      = [str "/question-2"] :=
  emptyPrefix_identity (str "/question-2") (by decide)

/-- C5: for every mount prefix `p`, the `/question-1` handler causes one
underlying redirect call with target `p ++ /question-2`, and the
`/question-2` handler one with target `p ++ /question-1`. -/
theorem handlers_redirect_symmetric {σ : Type} (p : JSString) (rest : σ) :
    question1Handler (installRewriter ⟨p⟩
        (⟨traceRedirect, rest⟩ : Response (List JSString) σ))
        = [p ++ str "/question-2"] ∧
      question2Handler (installRewriter ⟨p⟩
        (⟨traceRedirect, rest⟩ : Response (List JSString) σ))
        = [p ++ str "/question-1"] := by
  have h2 : jsStartsWith (str "/question-2") (str "/") = true := by decide
  have h1 : jsStartsWith (str "/question-1") (str "/") = true := by decide
  constructor <;>
    simp [question1Handler, question2Handler, installRewriter,
      wrappedRedirect, traceRedirect, h1, h2]

/-- C6: for every target, the wrapper calls the original redirect exactly
once, with the computed final destination, and returns that call's result
unchanged; the trace of underlying calls is the one-element list holding the
final destination. -/
theorem wrapper_calls_once_and_is_transparent {α : Type} (p t : JSString)
    (originalRedirect : JSString → α) :
    wrappedRedirect p originalRedirect t = originalRedirect (rewriteTarget p t) ∧
      wrappedRedirect p traceRedirect t = [rewriteTarget p t] := by
  constructor <;> simp [wrappedRedirect, traceRedirect, rewriteTarget]

/-- C7: installing the rewriter replaces only the `redirect` method: the rest
of the response object is unchanged, the request objects (with their mount
prefixes) of every pair are unchanged, and every other request/response pair
of the collection is left exactly as it was. -/
theorem install_frame {α σ : Type} (req : Request) (res : Response α σ)
    (pairs : List (Request × Response α σ)) (i j : Nat) :
    (installRewriter req res).rest = res.rest ∧
      (installRewriter req res).redirect
        = wrappedRedirect req.baseUrl res.redirect ∧
      ((installAt pairs i)[i]?.map Prod.fst = pairs[i]?.map Prod.fst) ∧
      (j ≠ i → (installAt pairs i)[j]? = pairs[j]?) := by
  refine ⟨rfl, rfl, ?_, ?_⟩
  · unfold installAt
    rcases hp : pairs[i]? with _ | ⟨req0, res0⟩
    · simp [hp]
    · have hi : i < pairs.length := by
        by_contra hlen
        rw [List.getElem?_eq_none (Nat.le_of_not_lt hlen)] at hp
        exact Option.noConfusion hp
      simp [List.getElem?_set_self, hi, hp]
  · intro hj
    unfold installAt
    rcases hp : pairs[i]? with _ | ⟨req0, res0⟩
    · rfl
    · exact List.getElem?_set_ne (fun h => hj h.symm)

/-- C7 witness: installing on the first of two pairs leaves the response
remainder, the requests, and the second pair untouched. -/
theorem install_frame_witness :
    (installRewriter ⟨str "/v1"⟩
        (⟨traceRedirect, (5 : Nat)⟩ : Response (List JSString) Nat)).rest = 5 ∧
      ((installAt [(⟨str "/v1"⟩, ⟨traceRedirect, (5 : Nat)⟩),
          (⟨str "/v2"⟩, ⟨traceRedirect, 7⟩)] 0)[1]?
        = some (⟨str "/v2"⟩, ⟨traceRedirect, 7⟩)) := by
  have h := install_frame (α := List JSString) (σ := Nat) ⟨str "/v1"⟩
    ⟨traceRedirect, 5⟩
    [(⟨str "/v1"⟩, ⟨traceRedirect, 5⟩), (⟨str "/v2"⟩, ⟨traceRedirect, 7⟩)] 0 1
  exact ⟨h.1, (h.2.2.2 (by decide)).trans rfl⟩

/-- C8: when the underlying redirect is fallible, the wrapper propagates its
error unchanged and adds no failure of its own: the wrapped call errors with
`e` exactly when the underlying call at the rewritten target does, and
succeeds with `a` exactly when the underlying call does. -/
theorem wrapper_propagates_errors {ε α : Type} (p t : JSString)
    (originalRedirect : JSString → Except ε α) :
    (∀ e : ε, originalRedirect (rewriteTarget p t) = Except.error e →
        wrappedRedirect p originalRedirect t = Except.error e) ∧
      (∀ a : α, originalRedirect (rewriteTarget p t) = Except.ok a →
        wrappedRedirect p originalRedirect t = Except.ok a) := by
  constructor <;> intro x hx <;>
    simpa [wrappedRedirect, rewriteTarget] using hx

/-- C8 witness: an underlying redirect that fails with error code 7 makes
the wrapped redirect fail with the same error code 7. -/
theorem wrapper_propagates_errors_witness :
    wrappedRedirect (str "/v1")
        (fun _ => (Except.error 7 : Except Nat Unit)) (str "/question-2")
      = Except.error 7 :=
  (wrapper_propagates_errors (str "/v1") (str "/question-2")
    (fun _ => (Except.error 7 : Except Nat Unit))).1 7 rfl

/-- C9: the target handed to the underlying redirect is a pure function of
the mount prefix and the handler-supplied target alone: two installations
over requests with equal `baseUrl` and arbitrary, possibly different,
remaining response state produce identical underlying calls, and that call's
target is `rewriteTarget` of the prefix and the target. -/
theorem redirect_target_deterministic {σ₁ σ₂ : Type} (req₁ req₂ : Request)
    (rest₁ : σ₁) (rest₂ : σ₂) (t : JSString)
    (h : req₁.baseUrl = req₂.baseUrl) :
    (installRewriter req₁
          (⟨traceRedirect, rest₁⟩ : Response (List JSString) σ₁)).redirect t
        = (installRewriter req₂
          (⟨traceRedirect, rest₂⟩ : Response (List JSString) σ₂)).redirect t ∧
      (installRewriter req₁
          (⟨traceRedirect, rest₁⟩ : Response (List JSString) σ₁)).redirect t
        = [rewriteTarget req₁.baseUrl t] := by
  constructor
  · simp [installRewriter, h]
  · simp [installRewriter, wrappedRedirect, traceRedirect, rewriteTarget]

/-- C9 witness: same prefix `/v1`, different response remainders (a `Nat`
and a `Bool`), same target: identical underlying call, with the rewritten
target. -/
theorem redirect_target_deterministic_witness :
    (installRewriter ⟨str "/v1"⟩
          (⟨traceRedirect, (3 : Nat)⟩ : Response (List JSString) Nat)).redirect
          (str "/question-2")
        = (installRewriter ⟨str "/v1"⟩
          (⟨traceRedirect, true⟩ : Response (List JSString) Bool)).redirect
          (str "/question-2") ∧
      (installRewriter ⟨str "/v1"⟩
          (⟨traceRedirect, (3 : Nat)⟩ : Response (List JSString) Nat)).redirect
          (str "/question-2")
        = [rewriteTarget (str "/v1") (str "/question-2")] :=
  redirect_target_deterministic ⟨str "/v1"⟩ ⟨str "/v1"⟩ 3 true
    (str "/question-2") rfl

/-- C10: every target beginning with `//` (a protocol-relative URL) also
begins with `/`, so it is classified as path-absolute and the mount prefix
is prepended, for every prefix. -/
theorem protocolRelative_gets_prefixed (p t : JSString)
    (h : jsStartsWith t (str "//") = true) :
    wrappedRedirect p traceRedirect t = [p ++ t] := by
  have h1 : jsStartsWith t (str "/") = true := by
    simp only [jsStartsWith, str, List.isPrefixOf_iff_prefix] at h ⊢
    exact List.IsPrefix.trans ⟨['/'], rfl⟩ h
  simp [wrappedRedirect, traceRedirect, h1]

/-- C10 witness: `//example.com/x` under prefix `/v1` is sent to the
underlying redirect as `/v1//example.com/x`. -/
theorem protocolRelative_gets_prefixed_witness :
    wrappedRedirect (str "/v1") traceRedirect (str "//example.com/x")
      = [str "/v1//example.com/x"] :=
  (protocolRelative_gets_prefixed (str "/v1") (str "//example.com/x")
    (by decide)).trans (by decide)

end RoutingV1
